import Mathlib

/-!
Shallow embedding of `src/demo_app.py` from the repository
`cj-mills/cjm-fasthtml-workflow-transcription-single-file`.

The file is presentation glue: it builds HTML component trees for two
routes (`/` and `/workflow`), loads discovered plugins at startup with
per-plugin error handling, registers an atexit cleanup hook, and (on
direct invocation) launches a development server together with a one-shot
browser-opening timer.

The embedding models:
  * rendered FastHTML component trees as an inductive `Node` type
    (Python `None` children become `Node.null`, and f-string number
    interpolation such as `f"{len(all_plugins)}"` becomes `Node.numText`
    so that displayed counts are directly observable);
  * the externally supplied collaborators (workflow object, plugin
    manager) as structures of the data the demo reads from them;
  * externally observable calls (plugin loads, monitor registration,
    unload-all, browser opening, server launch, printed log lines) as an
    explicit event trace.
-/

/-- HTML component tree produced by the FastHTML constructors used in the
demo (`Div`, `H1`, `P`, `Span`, `A`, `Code`).  `null` models a Python
`None` child (skipped at render time); `numText n` models an f-string
interpolation of the number `n` into displayed text. -/
inductive Node where
  | el (tag : String) (cls : String) (children : List Node)
  | text (s : String)
  | numText (n : Nat)
  | null
deriving Repr

namespace FH

/-- `Div(*children, cls=...)`. -/
def Div (children : List Node) (cls : String) : Node := .el "div" cls children

/-- `H1(*children, cls=...)`. -/
def H1 (children : List Node) (cls : String) : Node := .el "h1" cls children

/-- `P(*children, cls=...)`. -/
def P (children : List Node) (cls : String) : Node := .el "p" cls children

/-- `Span(*children, cls=...)`. -/
def Span (children : List Node) (cls : String) : Node := .el "span" cls children

/-- `A(*children, href=..., cls=...)`; the href is kept in the class-free
attribute slot by prepending it to the tag for observability. -/
def A (children : List Node) (href : String) (cls : String) : Node :=
  .el ("a href=" ++ href) cls children

/-- `Code(*children)`. -/
def Code (children : List Node) : Node := .el "code" "" children

end FH

open FH

/-- `combine_classes(*args)` from `cjm_fasthtml_tailwind.core.base`:
joins utility class strings with spaces. -/
def combine_classes (cs : List String) : String := String.intercalate " " cs

namespace font_size

def _4xl : String := "text-4xl"

def _2xl : String := "text-2xl"

def lg : String := "text-lg"

end font_size

namespace font_weight

def bold : String := "font-bold"

end font_weight

namespace text_align

def center : String := "text-center"

def left : String := "text-left"

end text_align

namespace m

def b (n : Nat) : String := "mb-" ++ toString n

def r (n : Nat) : String := "mr-" ++ toString n

def t (n : Nat) : String := "mt-" ++ toString n

namespace x

def auto : String := "mx-auto"

end x

end m

/-- Tailwind `p(n)` spacing utility. -/
def p (n : Nat) : String := "p-" ++ toString n

def container : String := "container"

namespace max_w

def _4xl : String := "max-w-4xl"

def _6xl : String := "max-w-6xl"

end max_w

def badge : String := "badge"

namespace badge_colors

def info : String := "badge-info"

def warning : String := "badge-warning"

def success : String := "badge-success"

end badge_colors

def alert : String := "alert"

namespace alert_colors

def info : String := "alert-info"

def warning : String := "alert-warning"

end alert_colors

def btn : String := "btn"

namespace btn_colors

def primary : String := "btn-primary"

end btn_colors

namespace btn_sizes

def lg : String := "btn-lg"

end btn_sizes

/-- Metadata of a discovered plugin (only the `name` attribute is read by
the demo). -/
structure PluginMeta where
  name : String
deriving Repr, DecidableEq

/-- A configured plugin as exposed by the workflow's plugin registry
(only `title` is read by the demo). -/
structure Plugin where
  title : String
deriving Repr, DecidableEq

/-- A media file as returned by the workflow's file browser `scan`. -/
structure MediaFile where
  path : String
deriving Repr, DecidableEq

/-- The externally constructed `SingleFileTranscriptionWorkflow` object,
as seen by the demo: a plugin-registry accessor (`get_all_plugins`), a
file-browser accessor (`scan`), and an entry-point renderer
(`render_entry_point(request, sess)`, modelled as a function of the
request id and session id). -/
structure Workflow where
  registry_plugins : List Plugin
  browser_files : List MediaFile
  render_entry : Nat → Nat → Node

/-- An HTTP request: an identifier and whether it carries the HTMX
request header. -/
structure Request where
  id : Nat
  isHtmx : Bool
deriving Repr, DecidableEq

/-- Externally observable calls made by the demo, recorded as a trace. -/
inductive Event where
  | getAllPlugins
  | scanFiles
  | renderEntry (req : Nat) (sess : Nat)
  | loadPlugin (name : String)
  | registerMonitor (name : String)
  | unloadAll
  | openBrowser (url : String)
  | serveForever (host : String) (port : Nat)
  | logLine (s : String)
deriving Repr, DecidableEq

/-- The "no plugins" informational alert of `home_content`
(src/demo_app.py lines 247-255). -/
def no_plugins_alert : Node :=
  Div
    [ Div
        [ Span [.text "Info: "] font_weight.bold,
          .text "No transcription plugins discovered. Install plugins using ",
          Code [.text "cjm-ctl install-all --config plugins.yaml"],
          .text " ",
          .text "and restart the demo to enable transcription." ]
        (combine_classes [alert, alert_colors.info, m.t 8]) ]
    ""

/-- The "no media directories" warning alert of `home_content`
(src/demo_app.py lines 257-265). -/
def no_media_alert : Node :=
  Div
    [ Div
        [ Span [.text "Note: "] font_weight.bold,
          .text "No media directories configured. Use the workflow settings ",
          .text "to add directories containing audio/video files to transcribe." ]
        (combine_classes [alert, alert_colors.warning, m.t 4]) ]
    ""

/-- The plugins status badge (src/demo_app.py lines 217-225): count of
`all_plugins`, info color when non-empty, warning color when empty. -/
def plugins_badge (all_plugins : List Plugin) : Node :=
  Span
    [ Span [.numText all_plugins.length] font_weight.bold,
      .text " Plugins" ]
    (combine_classes
      [ badge,
        if all_plugins.isEmpty then badge_colors.warning else badge_colors.info,
        m.r 2 ])

/-- The media-files status badge (src/demo_app.py lines 226-233): count of
`media_files`, success color when non-empty, warning color when empty. -/
def media_badge (media_files : List MediaFile) : Node :=
  Span
    [ Span [.numText media_files.length] font_weight.bold,
      .text " Media Files" ]
    (combine_classes
      [ badge,
        if media_files.isEmpty then badge_colors.warning else badge_colors.success ])

/-- One feature bullet of the feature list (src/demo_app.py lines 186-213). -/
def feature_item (label : String) (mb : Nat) : Node :=
  Div
    [ Span [.text ""] (combine_classes [font_size._2xl, m.r 3]),
      Span [.text label] "" ]
    (combine_classes [m.b mb])

/-- The feature list of `home_content` (src/demo_app.py lines 186-213). -/
def feature_list : Node :=
  Div
    [ feature_item "Plugin-based transcription engine support" 3,
      feature_item "Process-isolated plugin execution" 3,
      feature_item "3-step wizard: Plugin -> File -> Confirm" 3,
      feature_item "Background job execution with SSE progress" 3,
      feature_item "Auto-save results with export options" 8 ]
    (combine_classes [text_align.left, m.b 8])

/-- `home_content` (src/demo_app.py lines 173-274): reads the current
plugin and media-file collections from the workflow object and builds the
homepage tree.  Returns the rendered node paired with the trace of
external calls made (`get_all_plugins` once, `scan` once). -/
def home_content (w : Workflow) : Node × List Event :=
  let all_plugins := w.registry_plugins
  let media_files := w.browser_files
  ( Div
      [ H1 [.text "Single-File Transcription Workflow Demo"]
          (combine_classes [font_size._4xl, font_weight.bold, m.b 4]),
        P [.text "A self-contained workflow for transcribing audio and video files:"]
          (combine_classes [font_size.lg, m.b 6]),
        feature_list,
        Div [plugins_badge all_plugins, media_badge media_files]
          (combine_classes [m.b 8]),
        Div
          [ A [.text "Start Transcription Workflow"] "/workflow"
              (combine_classes [btn, btn_colors.primary, btn_sizes.lg, m.r 2]) ]
          "",
        (if all_plugins.isEmpty then no_plugins_alert else Node.null),
        (if media_files.isEmpty then no_media_alert else Node.null) ]
      (combine_classes [container, max_w._4xl, m.x.auto, p 8, text_align.center]),
    [Event.getAllPlugins, Event.scanFiles] )

mutual

/-- All text leaves of a rendered tree, in document order (number
interpolations are collected separately by `Node.nums`). -/
def Node.texts : Node → List String
  | .el _ _ cs => textsOf cs
  | .text s => [s]
  | .numText _ => []
  | .null => []

/-- Text leaves of a list of children, in order. -/
def textsOf : List Node → List String
  | [] => []
  | c :: cs => c.texts ++ textsOf cs

end

mutual

/-- All interpolated numbers of a rendered tree, in document order:
these are exactly the counts the page displays. -/
def Node.nums : Node → List Nat
  | .el _ _ cs => numsOf cs
  | .text _ => []
  | .numText n => [n]
  | .null => []

/-- Interpolated numbers of a list of children, in order. -/
def numsOf : List Node → List Nat
  | [] => []
  | c :: cs => c.nums ++ numsOf cs

end

/-- `IsSub t n`: the tree `t` occurs as a subtree of `n`. -/
inductive IsSub : Node → Node → Prop where
  | refl (n : Node) : IsSub n n
  | child {t c : Node} (tag cls : String) {cs : List Node}
      (hc : c ∈ cs) (h : IsSub t c) : IsSub t (.el tag cls cs)

/-- The class attribute of a rendered element (empty for leaves). -/
def Node.cls : Node → String
  | .el _ c _ => c
  | _ => ""

/-- Splits a character list at spaces, accumulating the current word. -/
def wordsAux : List Char → List Char → List String
  | [], acc => [String.mk acc.reverse]
  | c :: cs, acc =>
    if c = ' ' then String.mk acc.reverse :: wordsAux cs []
    else wordsAux cs (c :: acc)

/-- The space-separated words of a class attribute string. -/
def classList (s : String) : List String := wordsAux s.toList []

/-- `hasClass n c`: the element `n` carries utility class `c` in its
space-separated class attribute. -/
def hasClass (n : Node) (c : String) : Bool :=
  (classList n.cls).contains c

/-- The navbar built by `create_navbar` (external `cjm_fasthtml_app_core`
component; src/demo_app.py lines 300-308): title plus the two nav items. -/
def navbar : Node :=
  .el "navbar" "" [.text "Transcription Demo", .text "Home", .text "Workflow"]

/-- `wrap_with_layout` from `cjm_fasthtml_app_core.core.layout`: wraps
page content in the application layout together with the navbar. -/
def wrap_with_layout (content : Node) (nb : Node) : Node :=
  .el "layout" "" [nb, content]

/-- Modelled from the spec: `handle_htmx_request` from
`cjm_fasthtml_app_core.core.htmx` (external library, not part of this
repository).  Per the spec's delegation contract it invokes the content
function exactly once per request, returning the content directly for an
HTMX request and `wrap_fn(content)` for a full-page request. -/
def handle_htmx_request (req : Request) (content : Unit → Node × List Event)
    (wrap_fn : Node → Node) : Node × List Event :=
  let r := content ()
  (if req.isHtmx then r.1 else wrap_fn r.1, r.2)

/-- The `index` route handler for `GET /` (src/demo_app.py lines 169-280),
closing over the workflow object `w`. -/
def index (w : Workflow) (req : Request) : Node × List Event :=
  handle_htmx_request req (fun _ => home_content w)
    (fun content => wrap_with_layout content navbar)

/-- `workflow_content` (src/demo_app.py lines 287-291): renders the
workflow entry point for this request and session inside a container. -/
def workflow_content (w : Workflow) (req : Request) (sess : Nat) :
    Node × List Event :=
  ( Div [w.render_entry req.id sess]
      (combine_classes [container, max_w._6xl, m.x.auto, p 4]),
    [Event.renderEntry req.id sess] )

/-- The `workflow` route handler for `GET /workflow`
(src/demo_app.py lines 283-297), closing over the workflow object `w`. -/
def workflow_route (w : Workflow) (req : Request) (sess : Nat) :
    Node × List Event :=
  handle_htmx_request req (fun _ => workflow_content w req sess)
    (fun content => wrap_with_layout content navbar)

/-- Outcome of a `plugin_manager.load_plugin(meta)` call: either a normal
return carrying the success boolean, or a raised exception with its
message. -/
inductive LoadOutcome where
  | ok (success : Bool)
  | exn (msg : String)
deriving Repr, DecidableEq

/-- Outcome of a `plugin_manager.register_system_monitor(name)` call:
normal return or a raised exception with its message. -/
inductive RegOutcome where
  | ok
  | exn (msg : String)
deriving Repr, DecidableEq

/-- The externally constructed `PluginManager`, as seen by the demo:
category-filtered discovery (`get_discovered_by_category`), per-plugin
load, and system-monitor registration.  The outcome functions describe
what the external calls would do when the demo makes them. -/
structure PluginManager where
  discovered : String → List PluginMeta
  load : PluginMeta → LoadOutcome
  register_monitor : String → RegOutcome

/-- The plugin-loading loop of `main` (src/demo_app.py lines 108-114):
each discovered transcription plugin is load-attempted inside a
`try/except`; the outcome (loaded / failed / error) is printed and the
loop continues with the next plugin either way. -/
def load_loop (load : PluginMeta → LoadOutcome) :
    List PluginMeta → List Event
  | [] => []
  | meta :: rest =>
    (Event.loadPlugin meta.name ::
      match load meta with
      | .ok true => [Event.logLine ("    - " ++ meta.name ++ ": loaded")]
      | .ok false => [Event.logLine ("    - " ++ meta.name ++ ": failed")]
      | .exn e => [Event.logLine ("    - " ++ meta.name ++ ": error - " ++ e)])
    ++ load_loop load rest

/-- The optional system-monitor step of `main` (src/demo_app.py lines
116-124): if any `system_monitor` plugins were discovered, load the first
one and register it, inside a single `try/except`; an exception from
either call is caught and logged.  If none were discovered, nothing is
attempted. -/
def monitor_step (pm : PluginManager) : List Event :=
  match pm.discovered "system_monitor" with
  | [] => []
  | mon :: _ =>
    Event.loadPlugin mon.name ::
    match pm.load mon with
    | .exn e => [Event.logLine ("  System monitor failed to load: " ++ e)]
    | .ok _ =>
      Event.registerMonitor mon.name ::
      match pm.register_monitor mon.name with
      | .exn e => [Event.logLine ("  System monitor failed to load: " ++ e)]
      | .ok => [Event.logLine ("  System monitor registered: " ++ mon.name)]

/-- The `cleanup_plugins` closure registered with `atexit`
(src/demo_app.py lines 127-132): prints, calls `unload_all` once,
prints again. -/
def cleanup_plugins : List Event :=
  [ Event.logLine "[Cleanup] Unloading all plugins...",
    Event.unloadAll,
    Event.logLine "[Cleanup] Done" ]

/-- The application object returned by `main`: the shared mutable state
container (`app.state`) holding the workflow and plugin-manager
references, the workflow object captured by the route-handler closures,
the list of callbacks registered with `atexit` (each modelled by the
trace it emits when run), and the trace of external calls made during
startup. -/
structure App where
  state_workflow : Option Workflow
  state_manager : Option PluginManager
  captured_workflow : Workflow
  atexit_callbacks : List (List Event)
  startup_trace : List Event

/-- `main()` (src/demo_app.py lines 41-339), modelled over its external
collaborators: the plugin manager `pm` it constructs and the workflow
object `wf` that `SingleFileTranscriptionWorkflow.create_and_setup`
returns.  It runs the plugin-loading loop, the system-monitor step,
registers `cleanup_plugins` with atexit, stores the workflow and plugin
manager on `app.state`, and defines the route handlers closing over the
local variable `single_file_workflow` (= `wf`). -/
def demo_app.main (pm : PluginManager) (wf : Workflow) : App :=
  let transcription_plugins := pm.discovered "transcription"
  { state_workflow := some wf
    state_manager := some pm
    captured_workflow := wf
    atexit_callbacks := [cleanup_plugins]
    startup_trace := load_loop pm.load transcription_plugins ++ monitor_step pm }

/-- Serving `GET /` on the running application: the handler uses the
workflow object captured by its closure (src/demo_app.py line 175). -/
def serve_index (a : App) (req : Request) : Node × List Event :=
  index a.captured_workflow req

/-- Serving `GET /workflow` on the running application: the handler uses
the workflow object captured by its closure (src/demo_app.py line 289). -/
def serve_workflow (a : App) (req : Request) (sess : Nat) :
    Node × List Event :=
  workflow_route a.captured_workflow req sess

/-- A fallback workflow value used only to give the spec-following
variant `serve_index_from_state` a total reading of the optional state
slot. -/
def emptyWorkflow : Workflow :=
  { registry_plugins := [], browser_files := [], render_entry := fun _ _ => Node.null }

/-- Modelled from the spec: the claim that the route handlers "retrieve
these objects from that container when serving requests" - a handler
variant that reads the workflow back from `app.state` at request time
instead of using the closure.  Stated only to be compared with
`serve_index`, which embeds what the source actually does. -/
def serve_index_from_state (a : App) (req : Request) : Node × List Event :=
  index (a.state_workflow.getD emptyWorkflow) req

/-- Python `atexit` semantics: at normal interpreter exit every
registered callback is run exactly once, in reverse registration order. -/
def process_exit (callbacks : List (List Event)) : List Event :=
  (callbacks.reverse).flatten

/-- A complete run of the demo: `main()` once, then process exit running
the registered atexit callbacks. -/
def run_to_exit (pm : PluginManager) (wf : Workflow) : List Event :=
  let a := demo_app.main pm wf
  a.startup_trace ++ process_exit a.atexit_callbacks

/-- `threading.Timer` as used by the `__main__` block: a one-shot delayed
callback (interval in tenths of a second, avoiding the float `1.5`),
marked as a daemon thread. -/
structure Timer where
  interval_tenths : Nat
  callback : List Event
  daemon : Bool

/-- `open_browser(url)` (src/demo_app.py lines 350-352): logs and opens
the browser at `url`. -/
def open_browser (url : String) : List Event :=
  [Event.logLine ("Opening browser at " ++ url), Event.openBrowser url]

/-- The port bound by the `__main__` block (src/demo_app.py line 354). -/
def port : Nat := 5030

/-- The host bound by the `__main__` block (src/demo_app.py line 355). -/
def host : String := "0.0.0.0"

/-- `display_host` (src/demo_app.py line 356). -/
def display_host : String :=
  if ["0.0.0.0", "127.0.0.1"].contains host then "localhost" else host

/-- The browser-opening timer started by the `__main__` block
(src/demo_app.py lines 365-367): fires `open_browser` at
`http://localhost:{port}` once, 1.5 seconds after start. -/
def browser_timer : Timer :=
  { interval_tenths := 15,
    callback := open_browser ("http://localhost:" ++ toString port),
    daemon := true }

/-- One-shot timer semantics of `threading.Timer`: a started,
never-cancelled timer runs its callback exactly once after its delay. -/
def timer_run (t : Timer) : List Event := t.callback

/-- The `__main__` block (src/demo_app.py lines 342-370), serialised as
the trace of external calls of a run: `main()` startup, the browser
timer firing, and the `uvicorn.run(app, host, port)` launch. -/
def main_block_run (pm : PluginManager) (wf : Workflow) : List Event :=
  (demo_app.main pm wf).startup_trace
    ++ timer_run browser_timer
    ++ [Event.serveForever host port]

/-- `true` exactly on `loadPlugin` events. -/
def Event.isLoad : Event → Bool
  | .loadPlugin _ => true
  | _ => false

/-- `true` exactly on `registerMonitor` events. -/
def Event.isRegister : Event → Bool
  | .registerMonitor _ => true
  | _ => false

/-- `true` exactly on `logLine` events. -/
def Event.isLog : Event → Bool
  | .logLine _ => true
  | _ => false

/-- `true` exactly on `unloadAll` events. -/
def Event.isUnload : Event → Bool
  | .unloadAll => true
  | _ => false

/-- `true` exactly on `openBrowser` events. -/
def Event.isOpenBrowser : Event → Bool
  | .openBrowser _ => true
  | _ => false

/-- Subtrees survive the layout wrapper. -/
lemma isSub_wrap {t c : Node} (nb : Node) (h : IsSub t c) :
    IsSub t (wrap_with_layout c nb) :=
  IsSub.child "layout" "" (by simp) h

/-- Subtrees of the home content are subtrees of the `index` response,
for both HTMX and full-page requests. -/
lemma isSub_index {t : Node} (w : Workflow) (req : Request)
    (h : IsSub t (home_content w).1) : IsSub t (index w req).1 := by
  unfold index handle_htmx_request
  cases req.isHtmx
  · exact isSub_wrap navbar h
  · exact h

/-- The plugins badge occurs in the rendered homepage. -/
lemma isSub_home_plugins_badge (w : Workflow) :
    IsSub (plugins_badge w.registry_plugins) (home_content w).1 := by
  have h1 : IsSub (plugins_badge w.registry_plugins)
      (Div [plugins_badge w.registry_plugins, media_badge w.browser_files]
        (combine_classes [m.b 8])) :=
    IsSub.child _ _ (by simp) (IsSub.refl _)
  exact IsSub.child _ _ (by simp [home_content, FH.Div]) h1

/-- The media-files badge occurs in the rendered homepage. -/
lemma isSub_home_media_badge (w : Workflow) :
    IsSub (media_badge w.browser_files) (home_content w).1 := by
  have h1 : IsSub (media_badge w.browser_files)
      (Div [plugins_badge w.registry_plugins, media_badge w.browser_files]
        (combine_classes [m.b 8])) :=
    IsSub.child _ _ (by simp) (IsSub.refl _)
  exact IsSub.child _ _ (by simp [home_content, FH.Div]) h1

/-- The load events of the startup loop are exactly one load attempt per
discovered plugin, in discovery order, whatever each load returns or
raises. -/
lemma load_loop_filter_isLoad (load : PluginMeta → LoadOutcome) :
    ∀ l : List PluginMeta,
      (load_loop load l).filter Event.isLoad
        = l.map fun meta => Event.loadPlugin meta.name
  | [] => rfl
  | meta :: rest => by
    have ih := load_loop_filter_isLoad load rest
    cases hl : load meta with
    | ok b =>
      cases b <;> simp [load_loop, hl, Event.isLoad, ih, List.filter]
    | exn e =>
      simp [load_loop, hl, Event.isLoad, ih, List.filter]

/-- The startup loop prints exactly one status line per discovered
plugin. -/
lemma load_loop_log_length (load : PluginMeta → LoadOutcome) :
    ∀ l : List PluginMeta,
      ((load_loop load l).filter Event.isLog).length = l.length
  | [] => rfl
  | meta :: rest => by
    have ih := load_loop_log_length load rest
    cases hl : load meta with
    | ok b =>
      cases b <;> simp [load_loop, hl, Event.isLog, ih, List.filter, Event.isLoad]
    | exn e =>
      simp [load_loop, hl, Event.isLog, ih, List.filter, Event.isLoad]

/-- The startup loop emits only load and log events. -/
lemma load_loop_filter_none (load : PluginMeta → LoadOutcome)
    (pred : Event → Bool)
    (h1 : ∀ n, pred (.loadPlugin n) = false)
    (h2 : ∀ s, pred (.logLine s) = false) :
    ∀ l : List PluginMeta, (load_loop load l).filter pred = []
  | [] => rfl
  | meta :: rest => by
    have ih := load_loop_filter_none load pred h1 h2 rest
    cases hl : load meta with
    | ok b => cases b <;> simp [load_loop, hl, h1, h2, ih, List.filter]
    | exn e => simp [load_loop, hl, h1, h2, ih, List.filter]

/-- The monitor step emits only load, register and log events. -/
lemma monitor_step_filter_none (pm : PluginManager)
    (pred : Event → Bool)
    (h1 : ∀ n, pred (.loadPlugin n) = false)
    (h2 : ∀ s, pred (.logLine s) = false)
    (h3 : ∀ n, pred (.registerMonitor n) = false) :
    (monitor_step pm).filter pred = [] := by
  unfold monitor_step
  cases hd : pm.discovered "system_monitor" with
  | nil => rfl
  | cons mon rest =>
    cases hl : pm.load mon with
    | ok b =>
      cases hr : pm.register_monitor mon.name <;>
        simp [hl, hr, h1, h2, h3, List.filter]
    | exn e => simp [hl, h1, h2, List.filter]

/-- Claim C1: for every request to `GET /` when the set of plugins is
empty, the homepage handler renders the "no plugins" informational alert
(the message beginning "No transcription plugins discovered") and returns
a page (a rendered element) without raising an exception - `index` is a
total function whose result contains that message. -/
theorem index_empty_plugins_renders_no_plugins_alert
    (w : Workflow) (req : Request) (h : w.registry_plugins = []) :
    (index w req).1.texts.contains
        "No transcription plugins discovered. Install plugins using " = true
    ∧ ∃ tag cls cs, (index w req).1 = Node.el tag cls cs := by
  obtain ⟨reg, files, render⟩ := w
  obtain ⟨i, hx⟩ := req
  subst h
  cases hx <;> cases files <;> exact ⟨rfl, _, _, _, rfl⟩

/-- Witness for C1 at a concrete workflow with no plugins and one media
file, full-page request. -/
theorem index_empty_plugins_witness :
    ((⟨[], [⟨"a.mp3"⟩], fun _ _ => Node.null⟩ : Workflow).registry_plugins = [])
    ∧ ((index ⟨[], [⟨"a.mp3"⟩], fun _ _ => Node.null⟩ ⟨0, false⟩).1.texts.contains
          "No transcription plugins discovered. Install plugins using " = true
       ∧ ∃ tag cls cs,
          (index ⟨[], [⟨"a.mp3"⟩], fun _ _ => Node.null⟩ ⟨0, false⟩).1
            = Node.el tag cls cs) :=
  ⟨rfl, index_empty_plugins_renders_no_plugins_alert _ _ rfl⟩

/-- Claim C2: for every request to `GET /` when at least one plugin was
discovered, the homepage handler omits the "no plugins" informational
message and renders a plugin count badge whose displayed number equals
the count of the plugins. -/
theorem index_nonempty_plugins_omits_alert_and_shows_count
    (w : Workflow) (req : Request) (h : w.registry_plugins ≠ []) :
    (index w req).1.texts.contains
        "No transcription plugins discovered. Install plugins using " = false
    ∧ IsSub (plugins_badge w.registry_plugins) (index w req).1
    ∧ (plugins_badge w.registry_plugins).nums = [w.registry_plugins.length] := by
  refine ⟨?_, isSub_index w req (isSub_home_plugins_badge w), rfl⟩
  obtain ⟨aP, lP, h'⟩ := List.exists_cons_of_ne_nil h
  obtain ⟨reg, files, render⟩ := w
  obtain ⟨i, hx⟩ := req
  subst h'
  cases hx <;> cases files <;> rfl

/-- Witness for C2 at a concrete workflow with one plugin, HTMX request. -/
theorem index_nonempty_plugins_witness :
    ((⟨[⟨"Whisper"⟩], [], fun _ _ => Node.null⟩ : Workflow).registry_plugins ≠ [])
    ∧ ((index ⟨[⟨"Whisper"⟩], [], fun _ _ => Node.null⟩ ⟨0, true⟩).1.texts.contains
          "No transcription plugins discovered. Install plugins using " = false
       ∧ IsSub
          (plugins_badge
            ((⟨[⟨"Whisper"⟩], [], fun _ _ => Node.null⟩ : Workflow).registry_plugins))
          (index ⟨[⟨"Whisper"⟩], [], fun _ _ => Node.null⟩ ⟨0, true⟩).1
       ∧ (plugins_badge
            ((⟨[⟨"Whisper"⟩], [], fun _ _ => Node.null⟩ : Workflow).registry_plugins)).nums
          = [((⟨[⟨"Whisper"⟩], [], fun _ _ => Node.null⟩ : Workflow).registry_plugins).length]) :=
  ⟨by decide, index_nonempty_plugins_omits_alert_and_shows_count _ _ (by decide)⟩

/-- Claim C3: every request to `GET /workflow` calls the injected
workflow object's `render_entry_point` exactly once with that request and
session (the handler's trace is exactly one `renderEntry` event), the
returned page embeds that call's output, and a full-page request returns
it inside the page layout wrapper. -/
theorem workflow_route_delegates_once_and_embeds
    (w : Workflow) (req : Request) (sess : Nat) :
    (workflow_route w req sess).2 = [Event.renderEntry req.id sess]
    ∧ IsSub (w.render_entry req.id sess) (workflow_route w req sess).1
    ∧ (workflow_route w { id := req.id, isHtmx := false } sess).1
        = wrap_with_layout
            (Div [w.render_entry req.id sess]
              (combine_classes [container, max_w._6xl, m.x.auto, p 4]))
            navbar := by
  refine ⟨rfl, ?_, rfl⟩
  have hc : IsSub (w.render_entry req.id sess)
      (Div [w.render_entry req.id sess]
        (combine_classes [container, max_w._6xl, m.x.auto, p 4])) :=
    IsSub.child _ _ (by simp) (IsSub.refl _)
  unfold workflow_route handle_htmx_request
  cases req.isHtmx
  · exact isSub_wrap navbar hc
  · exact hc

/-- Claim C4: during startup, a plugin load failure or exception is
caught and logged and the loop continues - the loads of all discovered
transcription plugins are attempted (one load event per discovered
plugin, in order, whatever the load outcomes), each gets a log line, and
startup is not aborted: `main` still registers the cleanup callback and
stores the workflow. -/
theorem startup_attempts_every_plugin_load
    (pm : PluginManager) (wf : Workflow) :
    ((load_loop pm.load (pm.discovered "transcription")).filter Event.isLoad
      = (pm.discovered "transcription").map fun meta => Event.loadPlugin meta.name)
    ∧ ((load_loop pm.load (pm.discovered "transcription")).filter Event.isLog).length
      = (pm.discovered "transcription").length
    ∧ (demo_app.main pm wf).atexit_callbacks = [cleanup_plugins]
    ∧ (demo_app.main pm wf).state_workflow = some wf :=
  ⟨load_loop_filter_isLoad pm.load _, load_loop_log_length pm.load _, rfl, rfl⟩

/-- Claim C5: over a whole run that reaches process exit after a single
call to `main()`, the plugin manager's `unload_all` is invoked exactly
once, and that single invocation happens at process exit (none during
startup, exactly one among the atexit callbacks). -/
theorem exit_unloads_all_exactly_once (pm : PluginManager) (wf : Workflow) :
    ((run_to_exit pm wf).filter Event.isUnload).length = 1
    ∧ (demo_app.main pm wf).startup_trace.filter Event.isUnload = []
    ∧ (process_exit (demo_app.main pm wf).atexit_callbacks).filter Event.isUnload
      = [Event.unloadAll] := by
  have hstart : (demo_app.main pm wf).startup_trace.filter Event.isUnload = [] := by
    show ((load_loop pm.load _ ++ monitor_step pm).filter Event.isUnload) = []
    rw [List.filter_append,
      load_loop_filter_none pm.load Event.isUnload (fun _ => rfl) (fun _ => rfl),
      monitor_step_filter_none pm Event.isUnload (fun _ => rfl) (fun _ => rfl)
        (fun _ => rfl)]
    rfl
  refine ⟨?_, hstart, rfl⟩
  show (((demo_app.main pm wf).startup_trace
      ++ process_exit (demo_app.main pm wf).atexit_callbacks).filter
        Event.isUnload).length = 1
  rw [List.filter_append, hstart]
  rfl

/-- Claim C6: on direct invocation the program binds the development
server to host `0.0.0.0` and port `5030`, and a one-shot delayed callback
opens a local browser tab at `localhost:5030`; the callback fires at most
once per run (the run's trace contains exactly one browser-open event,
with that URL). -/
theorem main_block_binds_and_opens_browser_once
    (pm : PluginManager) (wf : Workflow) :
    host = "0.0.0.0" ∧ port = 5030
    ∧ (main_block_run pm wf).filter Event.isOpenBrowser
      = [Event.openBrowser "http://localhost:5030"]
    ∧ Event.serveForever host port ∈ main_block_run pm wf
    ∧ timer_run browser_timer = open_browser ("http://localhost:" ++ toString port)
    ∧ browser_timer.daemon = true := by
  have hstart : (demo_app.main pm wf).startup_trace.filter Event.isOpenBrowser = [] := by
    show ((load_loop pm.load _ ++ monitor_step pm).filter Event.isOpenBrowser) = []
    rw [List.filter_append,
      load_loop_filter_none pm.load Event.isOpenBrowser (fun _ => rfl) (fun _ => rfl),
      monitor_step_filter_none pm Event.isOpenBrowser (fun _ => rfl) (fun _ => rfl)
        (fun _ => rfl)]
    rfl
  refine ⟨rfl, rfl, ?_, ?_, rfl, rfl⟩
  · unfold main_block_run
    rw [List.filter_append, List.filter_append, hstart]
    rfl
  · unfold main_block_run
    exact List.mem_append_right _ (List.mem_singleton.mpr rfl)

/-- Claim C7, counterexample: the route handlers do NOT retrieve the
workflow from the shared state container when serving requests - they
use the closure over `main`'s local variable.  Concretely: start `main`
with a workflow having zero plugins, then reassign
`app.state.single_file_workflow` to a workflow having one plugin; the
served homepage still displays the counts of the closure's workflow, not
of the one in the container, so the handler modelled from the source
(`serve_index`) and the handler the claim describes
(`serve_index_from_state`) disagree. -/
theorem serve_index_ignores_state_container :
    ((serve_index
        { demo_app.main
            ⟨fun _ => [], fun _ => .ok true, fun _ => .ok⟩
            ⟨[], [], fun _ _ => Node.null⟩ with
          state_workflow := some ⟨[⟨"Whisper"⟩], [], fun _ _ => Node.null⟩ }
        ⟨0, false⟩).1.nums
      ≠ (serve_index_from_state
        { demo_app.main
            ⟨fun _ => [], fun _ => .ok true, fun _ => .ok⟩
            ⟨[], [], fun _ _ => Node.null⟩ with
          state_workflow := some ⟨[⟨"Whisper"⟩], [], fun _ _ => Node.null⟩ }
        ⟨0, false⟩).1.nums) := by
  decide

/-- Claim C7, amended: after `main()` completes, references to the
externally constructed workflow object and plugin manager are stored on
the application's shared mutable state container (`app.state`), and the
two route handlers serve requests using that same workflow object - but
through the closure over `main`'s local variable, not by reading it back
from the container. -/
theorem main_stores_refs_and_handlers_use_closure
    (pm : PluginManager) (wf : Workflow) (req : Request) (sess : Nat) :
    (demo_app.main pm wf).state_workflow = some wf
    ∧ (demo_app.main pm wf).state_manager = some pm
    ∧ (demo_app.main pm wf).captured_workflow = wf
    ∧ serve_index (demo_app.main pm wf) req = index wf req
    ∧ serve_workflow (demo_app.main pm wf) req sess = workflow_route wf req sess :=
  ⟨rfl, rfl, rfl, rfl, rfl⟩

/-- Claim C8: on every request to `GET /`, the handler makes exactly one
`get_all_plugins` call and one `scan` call (in that order), and the
numbers displayed on the page are exactly the lengths of the collections
those per-request calls return from the workflow object as it is at
request time - nothing is cached from startup. -/
theorem index_counts_read_freshly (w : Workflow) (req : Request) :
    (index w req).2 = [Event.getAllPlugins, Event.scanFiles]
    ∧ (index w req).1.nums
      = [w.registry_plugins.length, w.browser_files.length] := by
  obtain ⟨reg, files, render⟩ := w
  obtain ⟨i, hx⟩ := req
  cases hx <;> cases reg <;> cases files <;> exact ⟨rfl, rfl⟩

/-- Claim C9: on every request to `GET /`, the "No media directories
configured" warning is rendered if and only if the file browser's scan
result is empty; the media badge carries the success color exactly when
the scan result is non-empty and the warning color otherwise; the plugins
badge carries the info color exactly when the plugin collection is
non-empty and the warning color otherwise; and both badges occur in the
page. -/
theorem index_alerts_and_badge_colors (w : Workflow) (req : Request) :
    ((index w req).1.texts.contains
        "No media directories configured. Use the workflow settings "
      = w.browser_files.isEmpty)
    ∧ IsSub (media_badge w.browser_files) (index w req).1
    ∧ hasClass (media_badge w.browser_files) badge_colors.success
      = !w.browser_files.isEmpty
    ∧ hasClass (media_badge w.browser_files) badge_colors.warning
      = w.browser_files.isEmpty
    ∧ IsSub (plugins_badge w.registry_plugins) (index w req).1
    ∧ hasClass (plugins_badge w.registry_plugins) badge_colors.info
      = !w.registry_plugins.isEmpty
    ∧ hasClass (plugins_badge w.registry_plugins) badge_colors.warning
      = w.registry_plugins.isEmpty := by
  refine ⟨?_, isSub_index w req (isSub_home_media_badge w), ?_, ?_,
    isSub_index w req (isSub_home_plugins_badge w), ?_, ?_⟩ <;>
  · obtain ⟨reg, files, render⟩ := w
    obtain ⟨i, hx⟩ := req
    cases hx <;> cases reg <;> cases files <;> rfl

/-- Claim C10: during startup, if any `system_monitor` plugins are
discovered, only the first of them is load-attempted (the monitor step's
load events are exactly one event for the head of the discovered list);
registration is attempted exactly when the load does not raise; a raise
from either call is caught, and startup continues (`main` still registers
cleanup and stores the workflow); if none are discovered, no load or
registration is attempted. -/
theorem monitor_step_loads_first_only (pm : PluginManager) (wf : Workflow) :
    ((monitor_step pm).filter Event.isLoad
      = ((pm.discovered "system_monitor").take 1).map
          fun mon => Event.loadPlugin mon.name)
    ∧ ((monitor_step pm).filter Event.isRegister
      = match pm.discovered "system_monitor" with
        | [] => []
        | mon :: _ =>
          match pm.load mon with
          | .exn _ => []
          | .ok _ => [Event.registerMonitor mon.name])
    ∧ (demo_app.main pm wf).atexit_callbacks = [cleanup_plugins]
    ∧ (demo_app.main pm wf).state_workflow = some wf := by
  refine ⟨?_, ?_, rfl, rfl⟩ <;>
  · unfold monitor_step
    cases hd : pm.discovered "system_monitor" with
    | nil => rfl
    | cons mon rest =>
      cases hl : pm.load mon with
      | ok b =>
        cases hr : pm.register_monitor mon.name <;>
          simp [hl, hr, Event.isLoad, Event.isRegister, List.filter]
      | exn e =>
        simp [hl, Event.isLoad, Event.isRegister, List.filter]
